import Mathlib

/-!
Verification of the indicator pipeline and signal engine of `v11.py`
(single-file market dashboard). The shallow embedding models:

* `fetch_data` (indicator part, lines 56-71): EMA columns via the
  pandas `ewm(span, adjust=False).mean()` recurrence, the 20-bar rolling
  volume mean, and the shifted 20-bar rolling max/min resistance and
  support levels. Undefined (NaN) leading entries are `Option.none`;
  floats are idealised as rationals.
* `get_signal` (lines 75-117): Bool trend flags, the breakout and
  breakdown branches, the payload fields (price change percent, volume
  ratio, reasons), the returned status and color, and the card style.
  The unguarded division by the previous close (line 83) is modelled as
  an `Except.error` because Python raises ZeroDivisionError there.
* the cooldown block (lines 104-108) as `dispatch` over an explicit
  alert state (symbol to epoch seconds, default 0), and `signalStep`
  as one full evaluation including the dispatch decision.
-/

namespace TrendV11

/-- One raw OHLCV frame: `n` rows; columns as total functions on the
row index (only indices below `n` are meaningful). -/
structure RawFrame where
  n : ℕ
  high : ℕ → ℚ
  low : ℕ → ℚ
  close : ℕ → ℚ
  volume : ℕ → ℚ

/-- Recurrence of pandas `ewm(alpha = k, adjust=False).mean()`:
first value is the first close, then `ema[t] = close[t]*k + ema[t-1]*(1-k)`. -/
def emaF (k : ℚ) (close : ℕ → ℚ) : ℕ → ℚ
  | 0 => close 0
  | t + 1 => close (t + 1) * k + emaF k close t * (1 - k)

/-- `ewm(span = s, adjust=False)` uses `k = 2/(s+1)`. -/
def emaSpan (s : ℕ) (close : ℕ → ℚ) : ℕ → ℚ :=
  emaF (2 / ((s : ℚ) + 1)) close

/-- Maximum of `f a, f (a+1), ..., f (a+m)`. -/
def maxFrom (f : ℕ → ℚ) (a : ℕ) : ℕ → ℚ
  | 0 => f a
  | m + 1 => max (maxFrom f a m) (f (a + m + 1))

/-- Minimum of `f a, f (a+1), ..., f (a+m)`. -/
def minFrom (f : ℕ → ℚ) (a : ℕ) : ℕ → ℚ
  | 0 => f a
  | m + 1 => min (minFrom f a m) (f (a + m + 1))

/-- Sum of `f a, f (a+1), ..., f (a+m)`. -/
def sumFrom (f : ℕ → ℚ) (a : ℕ) : ℕ → ℚ
  | 0 => f a
  | m + 1 => sumFrom f a m + f (a + m + 1)

/-- pandas `rolling(window = w).max()` at row `u`: undefined (NaN) until
`w` rows exist, then the max over rows `u-w+1 .. u`. -/
def rollingMax (w : ℕ) (f : ℕ → ℚ) (u : ℕ) : Option ℚ :=
  if w ≤ u + 1 then some (maxFrom f (u + 1 - w) (w - 1)) else none

/-- pandas `rolling(window = w).min()` at row `u`. -/
def rollingMin (w : ℕ) (f : ℕ → ℚ) (u : ℕ) : Option ℚ :=
  if w ≤ u + 1 then some (minFrom f (u + 1 - w) (w - 1)) else none

/-- pandas `rolling(window = w).mean()` at row `u`. -/
def rollingMean (w : ℕ) (f : ℕ → ℚ) (u : ℕ) : Option ℚ :=
  if w ≤ u + 1 then some (sumFrom f (u + 1 - w) (w - 1) / (w : ℚ)) else none

/-- pandas `shift(1)`: row `t` takes the value of row `t-1`; row 0 is NaN. -/
def shift1 (g : ℕ → Option ℚ) : ℕ → Option ℚ
  | 0 => none
  | t + 1 => g t

/-- The enriched frame `get_signal` consumes: raw close and volume plus
the derived columns computed by `fetch_data`. Columns that can hold NaN
at the start (volume average, resistance, support) are Option valued. -/
structure EnrichedFrame where
  n : ℕ
  close : ℕ → ℚ
  volume : ℕ → ℚ
  ema20 : ℕ → ℚ
  ema60 : ℕ → ℚ
  ema200 : ℕ → ℚ
  volAvg : ℕ → Option ℚ
  resistC : ℕ → Option ℚ
  supportC : ℕ → Option ℚ

/-- Indicator part of `fetch_data` (v11.py lines 56-69): EMA20/60/100
columns by the adjust=false recurrence, `Vol_Avg` as the 20-bar rolling
mean of volume, `Resist` as the shifted 20-bar rolling max of high, and
`Support` as the shifted 20-bar rolling min of low. -/
def fetch_data (r : RawFrame) : EnrichedFrame where
  n := r.n
  close := r.close
  volume := r.volume
  ema20 := emaSpan 20 r.close
  ema60 := emaSpan 60 r.close
  ema200 := emaSpan 200 r.close
  volAvg := rollingMean 20 r.volume
  resistC := shift1 (rollingMax 20 r.high)
  supportC := shift1 (rollingMin 20 r.low)

/-- Status values `get_signal` can return (the Chinese status strings of
the source, as an enum): loading / bullish trend / bearish trend /
watch / breakout long / breakdown short. -/
inductive Status
  | loading
  | bullTrend
  | bearTrend
  | watch
  | breakoutLong
  | breakdownShort
deriving DecidableEq

/-- Reason lines of the alert message (v11.py lines 96 and 101), with
the numeric payload each line interpolates. -/
inductive Reason
  | brokeRes (v : ℚ)
  | trendBull
  | volConfirm (r : ℚ)
  | brokeSup (v : ℚ)
  | trendBear
  | volDown (r : ℚ)
deriving DecidableEq

/-- Informational summary flags (v11.py lines 113-115). -/
inductive Flag
  | priceShock (p : ℚ)
  | volSpike (r : ℚ)
deriving DecidableEq

/-- Everything one successful evaluation of `get_signal` computes. -/
structure Eval where
  status : Status
  color : String
  trigger : Bool
  action : Option Status
  reasons : List Reason
  price : ℚ
  pChange : ℚ
  vRatio : ℚ
  cardStyle : String
  summary : List Flag
deriving DecidableEq

/-- Result of `get_signal`: either the insufficient-data card
(status string for loading, neutral color, text for not enough data)
or a full evaluation. -/
inductive GsResult
  | insufficient
  | result (e : Eval)
deriving DecidableEq

/-- Python float comparison `price > x` where `x` may be NaN (none):
any comparison with NaN is false. -/
def gtOpt (price : ℚ) : Option ℚ → Bool
  | some r => decide (r < price)
  | none => false

/-- Python float comparison `price < x` where `x` may be NaN (none). -/
def ltOpt (price : ℚ) : Option ℚ → Bool
  | some s => decide (price < s)
  | none => false

/-- v11.py line 84: `volume / avg if avg > 0 else 1`; a NaN average
compares false against 0, so it also yields 1. -/
def volumeRatio (vol : ℚ) : Option ℚ → ℚ
  | some a => if 0 < a then vol / a else 1
  | none => 1

/-- v11.py line 87. -/
def is_bullish (price e20 e60 e200 : ℚ) : Bool :=
  decide (e200 < price) && decide (e60 < e20)

/-- v11.py line 88. -/
def is_bearish (price e20 e60 e200 : ℚ) : Bool :=
  decide (price < e200) && decide (e20 < e60)

/-- The if/elif branch pair of v11.py lines 94-101: action, reasons and
card style. The breakout branch needs bullish trend, close above the
resistance value and volume ratio at or above the threshold; the
breakdown branch is the elif mirror with support and bearish trend. -/
def decideBranch (price e20 e60 e200 vRatio vLimit : ℚ)
    (resV supV : Option ℚ) : Option Status × List Reason × String :=
  if is_bullish price e20 e60 e200 && gtOpt price resV
      && decide (vLimit ≤ vRatio) then
    (some Status.breakoutLong,
     [Reason.brokeRes (resV.getD 0), Reason.trendBull, Reason.volConfirm vRatio],
     "blink-bull")
  else if is_bearish price e20 e60 e200 && ltOpt price supV
      && decide (vLimit ≤ vRatio) then
    (some Status.breakdownShort,
     [Reason.brokeSup (supV.getD 0), Reason.trendBear, Reason.volDown vRatio],
     "blink-bear")
  else (none, [], "")

/-- v11.py line 110: trend status and color from price against EMA200. -/
def trendStatus (price e200 : ℚ) : Status × String :=
  if e200 < price then (Status.bullTrend, "#00ff00")
  else if price < e200 then (Status.bearTrend, "#ff4b4b")
  else (Status.watch, "#aaa")

/-- v11.py lines 113-115: informational flags. -/
def alertSummary (pChange vRatio pLimit vLimit : ℚ) : List Flag :=
  (if pLimit ≤ |pChange| then [Flag.priceShock pChange] else []) ++
  (if vLimit ≤ vRatio then [Flag.volSpike vRatio] else [])

/-- Row index of `df.iloc[-1]`. -/
def lastIdx (df : EnrichedFrame) : ℕ := df.n - 1

/-- Row index of `df.iloc[-2]`. -/
def prevIdx (df : EnrichedFrame) : ℕ := df.n - 2

/-- v11.py line 84 applied to the last row of the frame. -/
def vRatioOf (df : EnrichedFrame) : ℚ :=
  volumeRatio (df.volume (lastIdx df)) (df.volAvg (lastIdx df))

/-- v11.py line 83 applied to the last two rows of the frame (the
unguarded division; callers must rule out a zero previous close). -/
def pChangeOf (df : EnrichedFrame) : ℚ :=
  (df.close (lastIdx df) - df.close (prevIdx df)) / df.close (prevIdx df) * 100

/-- The branch pair applied to the last row of the frame. -/
def branchOf (df : EnrichedFrame) (vLimit : ℚ) :
    Option Status × List Reason × String :=
  decideBranch (df.close (lastIdx df)) (df.ema20 (lastIdx df))
    (df.ema60 (lastIdx df)) (df.ema200 (lastIdx df)) (vRatioOf df) vLimit
    (df.resistC (lastIdx df)) (df.supportC (lastIdx df))

/-- The evaluation `get_signal` performs once enough data exists and the
previous close is nonzero (v11.py lines 78-117, minus the dispatch).
The returned status is the trend status of line 110 unless a branch
fired, in which case the action label overrides it (line 111); the
color always stays the trend color. -/
def evalOf (df : EnrichedFrame) (pLimit vLimit : ℚ) : Eval :=
  { status := match (branchOf df vLimit).1 with
      | some a => a
      | none => (trendStatus (df.close (lastIdx df)) (df.ema200 (lastIdx df))).1
    color := (trendStatus (df.close (lastIdx df)) (df.ema200 (lastIdx df))).2
    trigger := (branchOf df vLimit).1.isSome
    action := (branchOf df vLimit).1
    reasons := (branchOf df vLimit).2.1
    price := df.close (lastIdx df)
    pChange := pChangeOf df
    vRatio := vRatioOf df
    cardStyle := (branchOf df vLimit).2.2
    summary := alertSummary (pChangeOf df) (vRatioOf df) pLimit vLimit }

/-- v11.py `get_signal` as a fallible function: fewer than 21 rows gives
the insufficient-data card (line 76); a previous close of exactly 0
raises ZeroDivisionError at line 83, modelled as `Except.error`;
otherwise the full evaluation. -/
def get_signal (df : EnrichedFrame) (pLimit vLimit : ℚ) :
    Except Unit GsResult :=
  if df.n < 21 then Except.ok GsResult.insufficient
  else if df.close (prevIdx df) = 0 then Except.error ()
  else Except.ok (GsResult.result (evalOf df pLimit vLimit))

/-- Session alert state: symbol to epoch time of the last alert, with
`.get(sym, 0)` default of 0 built in. -/
def AlertState : Type := String → ℚ

/-- The cooldown block, v11.py lines 104-108: when the evaluation
triggered and more than 900 seconds have passed since the stored
last-alert time for this symbol, the notification fires and the stored
time becomes `now`; otherwise nothing fires and the state is unchanged. -/
def dispatch (st : AlertState) (sym : String) (now : ℚ) (trigger : Bool) :
    Bool × AlertState :=
  if trigger = true ∧ 900 < now - st sym then
    (true, fun s => if s = sym then now else st s)
  else (false, st)

/-- One full engine step: evaluate `get_signal`, then run the cooldown
dispatch on its trigger. Returns the signal result, whether a
notification fired, and the updated alert state. -/
def signalStep (df : EnrichedFrame) (pLimit vLimit : ℚ) (sym : String)
    (st : AlertState) (now : ℚ) :
    Except Unit (GsResult × Bool × AlertState) :=
  match get_signal df pLimit vLimit with
  | Except.error e => Except.error e
  | Except.ok r =>
      let trig := match r with
        | GsResult.result ev => ev.trigger
        | GsResult.insufficient => false
      let d := dispatch st sym now trig
      Except.ok (r, d.1, d.2)

/-- The exponentially weighted mean with no adjustment, written as an
explicit weighted sum: weight `(1-k)^t` on the first close and weight
`k*(1-k)^(t-1-i)` on each later close `i+1`. -/
def emaClosed (k : ℚ) (close : ℕ → ℚ) (t : ℕ) : ℚ :=
  (1 - k) ^ t * close 0 +
    ∑ i in Finset.range t, k * (1 - k) ^ (t - 1 - i) * close (i + 1)

/-- Status of a `get_signal` outcome, when it produced an evaluation. -/
def resultStatus : Except Unit GsResult → Option Status
  | Except.ok (GsResult.result e) => some e.status
  | _ => none

/-- The action of an evaluation is the branch action. -/
theorem evalOf_action (df : EnrichedFrame) (pL vL : ℚ) :
    (evalOf df pL vL).action = (branchOf df vL).1 := rfl

/-- The trigger of an evaluation is set exactly when a branch fired. -/
theorem evalOf_trigger (df : EnrichedFrame) (pL vL : ℚ) :
    (evalOf df pL vL).trigger = (branchOf df vL).1.isSome := rfl

/-- The reasons of an evaluation come from the branch. -/
theorem evalOf_reasons (df : EnrichedFrame) (pL vL : ℚ) :
    (evalOf df pL vL).reasons = (branchOf df vL).2.1 := rfl

/-- The card style of an evaluation comes from the branch. -/
theorem evalOf_cardStyle (df : EnrichedFrame) (pL vL : ℚ) :
    (evalOf df pL vL).cardStyle = (branchOf df vL).2.2 := rfl

/-- When a branch fired, its action label overrides the status. -/
theorem evalOf_status_of_action (df : EnrichedFrame) (pL vL : ℚ) (a : Status)
    (h : (branchOf df vL).1 = some a) : (evalOf df pL vL).status = a := by
  show (match (branchOf df vL).1 with
    | some a => a
    | none => (trendStatus (df.close (lastIdx df)) (df.ema200 (lastIdx df))).1) = a
  rw [h]

/-- When no branch fired, the status is the plain trend status. -/
theorem evalOf_status_of_none (df : EnrichedFrame) (pL vL : ℚ)
    (h : (branchOf df vL).1 = none) :
    (evalOf df pL vL).status =
      (trendStatus (df.close (lastIdx df)) (df.ema200 (lastIdx df))).1 := by
  show (match (branchOf df vL).1 with
    | some a => a
    | none => (trendStatus (df.close (lastIdx df)) (df.ema200 (lastIdx df))).1) =
      (trendStatus (df.close (lastIdx df)) (df.ema200 (lastIdx df))).1
  rw [h]

/-- With at least 21 rows and a nonzero previous close, `get_signal`
returns the full evaluation. -/
theorem get_signal_ok (df : EnrichedFrame) (pL vL : ℚ) (h21 : ¬ df.n < 21)
    (hprev : df.close (prevIdx df) ≠ 0) :
    get_signal df pL vL = Except.ok (GsResult.result (evalOf df pL vL)) := by
  unfold get_signal
  rw [if_neg h21, if_neg hprev]

/-- A dispatch whose cooldown test succeeds fires and stores `now`. -/
theorem dispatch_fires (st : AlertState) (sym : String) (now : ℚ)
    (h : 900 < now - st sym) :
    dispatch st sym now true = (true, fun s => if s = sym then now else st s) := by
  unfold dispatch
  exact if_pos ⟨rfl, h⟩

/-- A dispatch whose cooldown test fails does not fire and keeps the state. -/
theorem dispatch_holds (st : AlertState) (sym : String) (now : ℚ)
    (h : ¬ 900 < now - st sym) :
    dispatch st sym now true = (false, st) := by
  unfold dispatch
  exact if_neg (fun hc => h hc.2)

/-- Claim C1: an eligible event dispatches only if now minus the stored
last-alert time strictly exceeds the 900-second cooldown; firing stores
`now` as the new last-alert time; hence, after a firing at `t1`, a
second eligible event at `t1 + d` fires iff `d > 900`, and when
`d ≤ 900` it fires nothing and leaves the state unchanged. -/
theorem cooldown_guarantee (st : AlertState) (sym : String) (t1 d : ℚ)
    (h1 : 900 < t1 - st sym) :
    (∀ st2 : AlertState, ∀ now : ℚ,
        (dispatch st2 sym now true).1 = true → 900 < now - st2 sym) ∧
    (dispatch st sym t1 true).1 = true ∧
    (dispatch st sym t1 true).2 sym = t1 ∧
    ((dispatch (dispatch st sym t1 true).2 sym (t1 + d) true).1 = true ↔
        900 < d) ∧
    (¬ 900 < d →
      dispatch (dispatch st sym t1 true).2 sym (t1 + d) true =
        (false, (dispatch st sym t1 true).2)) := by
  have hfire := dispatch_fires st sym t1 h1
  have hs : (dispatch st sym t1 true).2 sym = t1 := by
    rw [hfire]
    simp
  have harith : t1 + d - (dispatch st sym t1 true).2 sym = d := by
    rw [hs]
    ring
  refine ⟨?_, ?_, hs, ?_, ?_⟩
  · intro st2 now h
    by_cases hc : 900 < now - st2 sym
    · exact hc
    · rw [dispatch_holds st2 sym now hc] at h
      exact absurd h (by simp)
  · rw [hfire]
  · constructor
    · intro h
      by_cases hd : 900 < d
      · exact hd
      · rw [dispatch_holds _ sym _ (by rw [harith]; exact hd)] at h
        exact absurd h (by simp)
    · intro hd
      rw [dispatch_fires _ sym _ (by rw [harith]; exact hd)]
  · intro hd
    exact dispatch_holds _ sym _ (by rw [harith]; exact hd)

/-- Claim C1 witness: with the default state, an event at 1000 fires,
and a second eligible event 901 seconds later fires again. -/
theorem cooldown_guarantee_witness :
    (900 : ℚ) < 1000 - (fun _ => (0 : ℚ)) ("A") ∧
    ((∀ st2 : AlertState, ∀ now : ℚ,
        (dispatch st2 ("A") now true).1 = true → 900 < now - st2 ("A")) ∧
    (dispatch (fun _ => (0 : ℚ)) ("A") 1000 true).1 = true ∧
    (dispatch (fun _ => (0 : ℚ)) ("A") 1000 true).2 ("A") = 1000 ∧
    ((dispatch (dispatch (fun _ => (0 : ℚ)) ("A") 1000 true).2 ("A")
        (1000 + 901) true).1 = true ↔ (900 : ℚ) < 901) ∧
    (¬ (900 : ℚ) < 901 →
      dispatch (dispatch (fun _ => (0 : ℚ)) ("A") 1000 true).2 ("A")
          (1000 + 901) true =
        (false, (dispatch (fun _ => (0 : ℚ)) ("A") 1000 true).2))) :=
  ⟨by norm_num, cooldown_guarantee (fun _ => (0 : ℚ)) ("A") 1000 901
      (by norm_num)⟩

/-- Claim C6: the volume ratio is volume over baseline when the baseline
is strictly positive and 1 otherwise, including an undefined (NaN)
baseline; and the engine evaluation carries exactly this value. -/
theorem volume_ratio_guard :
    (∀ vol a : ℚ, 0 < a → volumeRatio vol (some a) = vol / a) ∧
    (∀ vol a : ℚ, ¬ 0 < a → volumeRatio vol (some a) = 1) ∧
    (∀ vol : ℚ, volumeRatio vol none = 1) ∧
    (∀ df : EnrichedFrame, ∀ pL vL : ℚ, ¬ df.n < 21 →
      df.close (prevIdx df) ≠ 0 →
      ∃ e, get_signal df pL vL = Except.ok (GsResult.result e) ∧
        e.vRatio = volumeRatio (df.volume (lastIdx df)) (df.volAvg (lastIdx df))) := by
  refine ⟨?_, ?_, ?_, ?_⟩
  · intro vol a h
    simp [volumeRatio, h]
  · intro vol a h
    simp [volumeRatio, h]
  · intro vol
    rfl
  · intro df pL vL h21 hprev
    exact ⟨evalOf df pL vL, get_signal_ok df pL vL h21 hprev, rfl⟩

/-- Claim C10: the bullish and bearish flags are mutually exclusive, the
branch pair yields at most one action among breakout long and breakdown
short, and under a bullish flag the breakdown action is unreachable. -/
theorem branch_exclusivity (price e20 e60 e200 vRatio vLimit : ℚ)
    (resV supV : Option ℚ) :
    (is_bullish price e20 e60 e200 && is_bearish price e20 e60 e200) = false ∧
    ((decideBranch price e20 e60 e200 vRatio vLimit resV supV).1 = none ∨
     (decideBranch price e20 e60 e200 vRatio vLimit resV supV).1 =
        some Status.breakoutLong ∨
     (decideBranch price e20 e60 e200 vRatio vLimit resV supV).1 =
        some Status.breakdownShort) ∧
    (is_bullish price e20 e60 e200 = true →
      (decideBranch price e20 e60 e200 vRatio vLimit resV supV).1 ≠
        some Status.breakdownShort) := by
  have hexcl : (is_bullish price e20 e60 e200 &&
      is_bearish price e20 e60 e200) = false := by
    unfold is_bullish is_bearish
    by_cases h : e200 < price
    · simp [asymm h]
    · simp [h]
  refine ⟨hexcl, ?_, ?_⟩
  · unfold decideBranch
    by_cases h1 : (is_bullish price e20 e60 e200 && gtOpt price resV
        && decide (vLimit ≤ vRatio)) = true
    · rw [if_pos h1]
      right
      left
      rfl
    · rw [if_neg h1]
      by_cases h2 : (is_bearish price e20 e60 e200 && ltOpt price supV
          && decide (vLimit ≤ vRatio)) = true
      · rw [if_pos h2]
        right
        right
        rfl
      · rw [if_neg h2]
        left
        rfl
  · intro hb
    have hbear : is_bearish price e20 e60 e200 = false := by
      rcases Bool.and_eq_false_iff.mp hexcl with h | h
      · rw [hb] at h
        exact absurd h (by simp)
      · exact h
    unfold decideBranch
    by_cases h1 : (is_bullish price e20 e60 e200 && gtOpt price resV
        && decide (vLimit ≤ vRatio)) = true
    · rw [if_pos h1]
      simp
    · rw [if_neg h1]
      rw [if_neg (by simp [hbear])]
      simp

/-- Breakout scenario closes: twenty bars at 10, then a final bar at 11. -/
def bexClose : ℕ → ℚ := fun t => if t < 20 then 10 else 11

/-- Breakout scenario volumes: twenty bars at 1, then a final bar at 3. -/
def bexVol : ℕ → ℚ := fun t => if t < 20 then 1 else 3

/-- Breakout scenario raw frame. -/
def bexRaw : RawFrame where
  n := 21
  high := bexClose
  low := bexClose
  close := bexClose
  volume := bexVol

/-- Breakout scenario enriched frame. -/
def bexFrame : EnrichedFrame := fetch_data bexRaw

/-- Claim C6 witness: the three guard cases on concrete numbers, and the
engine evaluation of the breakout scenario carrying that exact ratio. -/
theorem volume_ratio_guard_witness :
    (0 : ℚ) < 2 ∧ volumeRatio 6 (some 2) = 6 / 2 ∧
    ¬ (0 : ℚ) < 0 ∧ volumeRatio 6 (some 0) = 1 ∧
    volumeRatio 6 none = 1 ∧
    ¬ bexFrame.n < 21 ∧ bexFrame.close (prevIdx bexFrame) ≠ 0 ∧
    (∃ e, get_signal bexFrame 1 2 = Except.ok (GsResult.result e) ∧
      e.vRatio = volumeRatio (bexFrame.volume (lastIdx bexFrame))
        (bexFrame.volAvg (lastIdx bexFrame))) :=
  ⟨by norm_num, volume_ratio_guard.1 6 2 (by norm_num),
   by norm_num, volume_ratio_guard.2.1 6 0 (by norm_num),
   volume_ratio_guard.2.2.1 6,
   by decide, by decide,
   volume_ratio_guard.2.2.2 bexFrame 1 2 (by decide) (by decide)⟩

/-- Claim C10 witness: the exclusivity statement at concrete inputs. -/
theorem branch_exclusivity_witness :
    (is_bullish 2 2 1 1 && is_bearish 2 2 1 1) = false ∧
    ((decideBranch 2 2 1 1 1 0 (some 0) (some 3)).1 = none ∨
     (decideBranch 2 2 1 1 1 0 (some 0) (some 3)).1 =
        some Status.breakoutLong ∨
     (decideBranch 2 2 1 1 1 0 (some 0) (some 3)).1 =
        some Status.breakdownShort) ∧
    (is_bullish 2 2 1 1 = true →
      (decideBranch 2 2 1 1 1 0 (some 0) (some 3)).1 ≠
        some Status.breakdownShort) :=
  branch_exclusivity 2 2 1 1 1 0 (some 0) (some 3)

/-- Frame whose second-to-last close is exactly 0. -/
def zClose : ℕ → ℚ := fun t => if t = 19 then 0 else 10

/-- Raw frame with a zero previous close. -/
def zRaw : RawFrame where
  n := 21
  high := zClose
  low := zClose
  close := zClose
  volume := fun _ => 1

/-- Enriched frame with a zero previous close. -/
def zFrame : EnrichedFrame := fetch_data zRaw

/-- Claim C7 (code bug): when the previous close is 0, the source
divides by it unguarded at line 83, raising ZeroDivisionError; the
embedding returns the error outcome instead of any neutral value. -/
theorem prev_close_zero_crashes :
    zFrame.close (prevIdx zFrame) = 0 ∧
    get_signal zFrame 1 2 = Except.error () := by
  constructor
  · decide
  · unfold get_signal
    rw [if_neg (by decide), if_pos (by decide)]

/-- Claim C8: with fewer than 21 rows, `get_signal` returns the
insufficient-data card (the loading status with the neutral color and
the not-enough-data text), raises nothing, and the full step dispatches
no notification and leaves the alert state unchanged. -/
theorem not_enough_data (df : EnrichedFrame) (pL vL : ℚ) (sym : String)
    (st : AlertState) (now : ℚ) (h : df.n < 21) :
    get_signal df pL vL = Except.ok GsResult.insufficient ∧
    signalStep df pL vL sym st now =
      Except.ok (GsResult.insufficient, false, st) := by
  have hg : get_signal df pL vL = Except.ok GsResult.insufficient := by
    unfold get_signal
    rw [if_pos h]
  have hd : dispatch st sym now false = (false, st) := by
    unfold dispatch
    exact if_neg (fun hc => by simpa using hc.1)
  refine ⟨hg, ?_⟩
  unfold signalStep
  rw [hg]
  simp only [hd]

/-- Five-bar raw frame. -/
def shortRaw : RawFrame where
  n := 5
  high := fun _ => 10
  low := fun _ => 10
  close := fun _ => 10
  volume := fun _ => 1

/-- Five-bar enriched frame. -/
def shortFrame : EnrichedFrame := fetch_data shortRaw

/-- Claim C8 witness: the five-bar frame takes the insufficient path. -/
theorem not_enough_data_witness :
    shortFrame.n < 21 ∧
    (get_signal shortFrame 1 2 = Except.ok GsResult.insufficient ∧
     signalStep shortFrame 1 2 ("B") (fun _ => 0) 0 =
       Except.ok (GsResult.insufficient, false, fun _ => 0)) :=
  ⟨by decide, not_enough_data shortFrame 1 2 ("B") (fun _ => 0) 0 (by decide)⟩

/-- Claim C9: when the resistance and support of the last row are
undefined, no branch fires and the evaluation returns the plain trend
status with no action, trigger, reasons or card style. -/
theorem undefined_levels_fallback (df : EnrichedFrame) (pL vL : ℚ)
    (h21 : ¬ df.n < 21) (hprev : df.close (prevIdx df) ≠ 0)
    (hres : df.resistC (lastIdx df) = none)
    (hsup : df.supportC (lastIdx df) = none) :
    ∃ e, get_signal df pL vL = Except.ok (GsResult.result e) ∧
      e.action = none ∧ e.trigger = false ∧ e.reasons = [] ∧
      e.cardStyle = "" ∧
      e.status =
        (trendStatus (df.close (lastIdx df)) (df.ema200 (lastIdx df))).1 := by
  have hbr : branchOf df vL = (none, [], "") := by
    unfold branchOf
    rw [hres, hsup]
    unfold decideBranch
    rw [if_neg (by simp [gtOpt]), if_neg (by simp [ltOpt])]
  refine ⟨evalOf df pL vL, get_signal_ok df pL vL h21 hprev, ?_, ?_, ?_, ?_, ?_⟩
  · rw [evalOf_action, hbr]
  · rw [evalOf_trigger, hbr]
    rfl
  · rw [evalOf_reasons, hbr]
  · rw [evalOf_cardStyle, hbr]
  · exact evalOf_status_of_none df pL vL (by rw [hbr])

/-- Enriched frame with undefined levels at the last row but plenty of
rows, bullish trend. -/
def nolevelFrame : EnrichedFrame where
  n := 21
  close := fun _ => 10
  volume := fun _ => 1
  ema20 := fun _ => 10
  ema60 := fun _ => 10
  ema200 := fun _ => 9
  volAvg := fun _ => some 1
  resistC := fun _ => none
  supportC := fun _ => none

/-- Claim C9 witness: the undefined-level frame falls back to the plain
trend status. -/
theorem undefined_levels_fallback_witness :
    ¬ nolevelFrame.n < 21 ∧ nolevelFrame.close (prevIdx nolevelFrame) ≠ 0 ∧
    nolevelFrame.resistC (lastIdx nolevelFrame) = none ∧
    nolevelFrame.supportC (lastIdx nolevelFrame) = none ∧
    (∃ e, get_signal nolevelFrame 1 2 = Except.ok (GsResult.result e) ∧
      e.action = none ∧ e.trigger = false ∧ e.reasons = [] ∧
      e.cardStyle = "" ∧
      e.status = (trendStatus (nolevelFrame.close (lastIdx nolevelFrame))
        (nolevelFrame.ema200 (lastIdx nolevelFrame))).1) :=
  ⟨by decide, by decide, by decide, by decide,
   undefined_levels_fallback nolevelFrame 1 2 (by decide) (by decide)
     (by decide) (by decide)⟩

/-- The adjust=false recurrence equals the explicit weighted sum. -/
theorem emaF_eq_emaClosed (k : ℚ) (close : ℕ → ℚ) :
    ∀ t, emaF k close t = emaClosed k close t := by
  intro t
  induction t with
  | zero =>
      simp [emaF, emaClosed]
  | succ t ih =>
      rw [show emaF k close (t + 1) =
          close (t + 1) * k + emaF k close t * (1 - k) from rfl, ih]
      unfold emaClosed
      rw [Finset.sum_range_succ]
      have hstep : ∀ i ∈ Finset.range t,
          k * (1 - k) ^ (t + 1 - 1 - i) * close (i + 1) =
          (1 - k) * (k * (1 - k) ^ (t - 1 - i) * close (i + 1)) := by
        intro i hi
        have hi' : i < t := Finset.mem_range.mp hi
        have he : t + 1 - 1 - i = (t - 1 - i) + 1 := by omega
        rw [he, pow_succ]
        ring
      rw [Finset.sum_congr rfl hstep, ← Finset.mul_sum]
      have h0 : t + 1 - 1 - t = 0 := by omega
      rw [h0]
      ring

/-- Claim C4: the EMA column starts at the first close, obeys the
recurrence with `k = 2/(s+1)`, is defined at every row, equals the
exponentially weighted mean with no adjustment, and is exactly what
`fetch_data` stores for spans 20, 60 and 200. -/
theorem ema_definition (s : ℕ) (close : ℕ → ℚ) :
    emaSpan s close 0 = close 0 ∧
    (∀ t, emaSpan s close (t + 1) =
      close (t + 1) * (2 / ((s : ℚ) + 1)) +
        emaSpan s close t * (1 - 2 / ((s : ℚ) + 1))) ∧
    (∀ t, emaSpan s close t = emaClosed (2 / ((s : ℚ) + 1)) close t) ∧
    (∀ r : RawFrame, (fetch_data r).ema20 = emaSpan 20 r.close ∧
      (fetch_data r).ema60 = emaSpan 60 r.close ∧
      (fetch_data r).ema200 = emaSpan 200 r.close) :=
  ⟨rfl, fun _ => rfl, fun t => emaF_eq_emaClosed _ close t,
   fun _ => ⟨rfl, rfl, rfl⟩⟩

/-- Every element of the window is at most its running maximum. -/
theorem le_maxFrom (f : ℕ → ℚ) (a : ℕ) :
    ∀ m i, i ≤ m → f (a + i) ≤ maxFrom f a m := by
  intro m
  induction m with
  | zero =>
      intro i hi
      have : i = 0 := Nat.le_zero.mp hi
      subst this
      simp [maxFrom]
  | succ m ih =>
      intro i hi
      show f (a + i) ≤ max (maxFrom f a m) (f (a + m + 1))
      rcases Nat.lt_or_ge i (m + 1) with h | h
      · exact le_trans (ih i (Nat.lt_succ_iff.mp h)) (le_max_left _ _)
      · have hieq : i = m + 1 := le_antisymm hi h
        subst hieq
        rw [show a + (m + 1) = a + m + 1 from by omega]
        exact le_max_right _ _

/-- The running maximum is attained by some element of the window. -/
theorem maxFrom_mem (f : ℕ → ℚ) (a : ℕ) :
    ∀ m, ∃ i, i ≤ m ∧ maxFrom f a m = f (a + i) := by
  intro m
  induction m with
  | zero =>
      exact ⟨0, Nat.le_refl 0, by simp [maxFrom]⟩
  | succ m ih =>
      rcases ih with ⟨i, hi, heq⟩
      rcases max_cases (maxFrom f a m) (f (a + m + 1)) with ⟨h1, _⟩ | ⟨h1, _⟩
      · exact ⟨i, Nat.le_succ_of_le hi, by
          rw [show maxFrom f a (m + 1) =
            max (maxFrom f a m) (f (a + m + 1)) from rfl, h1, heq]⟩
      · exact ⟨m + 1, Nat.le_refl _, by
          rw [show maxFrom f a (m + 1) =
            max (maxFrom f a m) (f (a + m + 1)) from rfl, h1,
            show a + (m + 1) = a + m + 1 from by omega]⟩

/-- Every element of the window is at least its running minimum. -/
theorem minFrom_le (f : ℕ → ℚ) (a : ℕ) :
    ∀ m i, i ≤ m → minFrom f a m ≤ f (a + i) := by
  intro m
  induction m with
  | zero =>
      intro i hi
      have : i = 0 := Nat.le_zero.mp hi
      subst this
      simp [minFrom]
  | succ m ih =>
      intro i hi
      show min (minFrom f a m) (f (a + m + 1)) ≤ f (a + i)
      rcases Nat.lt_or_ge i (m + 1) with h | h
      · exact le_trans (min_le_left _ _) (ih i (Nat.lt_succ_iff.mp h))
      · have hieq : i = m + 1 := le_antisymm hi h
        subst hieq
        rw [show a + (m + 1) = a + m + 1 from by omega]
        exact min_le_right _ _

/-- The running minimum is attained by some element of the window. -/
theorem minFrom_mem (f : ℕ → ℚ) (a : ℕ) :
    ∀ m, ∃ i, i ≤ m ∧ minFrom f a m = f (a + i) := by
  intro m
  induction m with
  | zero =>
      exact ⟨0, Nat.le_refl 0, by simp [minFrom]⟩
  | succ m ih =>
      rcases ih with ⟨i, hi, heq⟩
      rcases min_cases (minFrom f a m) (f (a + m + 1)) with ⟨h1, _⟩ | ⟨h1, _⟩
      · exact ⟨i, Nat.le_succ_of_le hi, by
          rw [show minFrom f a (m + 1) =
            min (minFrom f a m) (f (a + m + 1)) from rfl, h1, heq]⟩
      · exact ⟨m + 1, Nat.le_refl _, by
          rw [show minFrom f a (m + 1) =
            min (minFrom f a m) (f (a + m + 1)) from rfl, h1,
            show a + (m + 1) = a + m + 1 from by omega]⟩

/-- Claim C5: for every row index t at least 20, the stored resistance
is the maximum of the highs of rows t-20 through t-1 and the stored
support is the minimum of the lows of those rows; row t itself is never
part of the window it is compared against. -/
theorem shift_by_one_levels (r : RawFrame) (t : ℕ) (ht : 20 ≤ t) :
    (∃ v, (fetch_data r).resistC t = some v ∧
      (∀ i, t - 20 ≤ i → i < t → r.high i ≤ v) ∧
      (∃ i, t - 20 ≤ i ∧ i < t ∧ r.high i = v)) ∧
    (∃ v, (fetch_data r).supportC t = some v ∧
      (∀ i, t - 20 ≤ i → i < t → v ≤ r.low i) ∧
      (∃ i, t - 20 ≤ i ∧ i < t ∧ r.low i = v)) := by
  obtain ⟨u, rfl⟩ : ∃ u, t = u + 1 := ⟨t - 1, by omega⟩
  have hu : 19 ≤ u := by omega
  have hmax : (fetch_data r).resistC (u + 1) =
      some (maxFrom r.high (u + 1 - 20) 19) := by
    show rollingMax 20 r.high u = some (maxFrom r.high (u + 1 - 20) 19)
    unfold rollingMax
    rw [if_pos (by omega : 20 ≤ u + 1)]
  have hmin : (fetch_data r).supportC (u + 1) =
      some (minFrom r.low (u + 1 - 20) 19) := by
    show rollingMin 20 r.low u = some (minFrom r.low (u + 1 - 20) 19)
    unfold rollingMin
    rw [if_pos (by omega : 20 ≤ u + 1)]
  constructor
  · refine ⟨maxFrom r.high (u + 1 - 20) 19, hmax, ?_, ?_⟩
    · intro i hi1 hi2
      rw [show i = (u + 1 - 20) + (i - (u + 1 - 20)) from by omega]
      exact le_maxFrom r.high (u + 1 - 20) 19 (i - (u + 1 - 20)) (by omega)
    · rcases maxFrom_mem r.high (u + 1 - 20) 19 with ⟨i, hi, heq⟩
      exact ⟨u + 1 - 20 + i, by omega, by omega, heq.symm⟩
  · refine ⟨minFrom r.low (u + 1 - 20) 19, hmin, ?_, ?_⟩
    · intro i hi1 hi2
      rw [show i = (u + 1 - 20) + (i - (u + 1 - 20)) from by omega]
      exact minFrom_le r.low (u + 1 - 20) 19 (i - (u + 1 - 20)) (by omega)
    · rcases minFrom_mem r.low (u + 1 - 20) 19 with ⟨i, hi, heq⟩
      exact ⟨u + 1 - 20 + i, by omega, by omega, heq.symm⟩

/-- Raw frame whose high and low columns are the row index. -/
def rampRaw : RawFrame where
  n := 21
  high := fun i => (i : ℚ)
  low := fun i => (i : ℚ)
  close := fun _ => 1
  volume := fun _ => 1

/-- Claim C5 witness: the level windows of the ramp frame at row 20. -/
theorem shift_by_one_levels_witness :
    20 ≤ 20 ∧
    ((∃ v, (fetch_data rampRaw).resistC 20 = some v ∧
      (∀ i, 20 - 20 ≤ i → i < 20 → rampRaw.high i ≤ v) ∧
      (∃ i, 20 - 20 ≤ i ∧ i < 20 ∧ rampRaw.high i = v)) ∧
    (∃ v, (fetch_data rampRaw).supportC 20 = some v ∧
      (∀ i, 20 - 20 ≤ i → i < 20 → v ≤ rampRaw.low i) ∧
      (∃ i, 20 - 20 ≤ i ∧ i < 20 ∧ rampRaw.low i = v))) :=
  ⟨by decide, shift_by_one_levels rampRaw 20 (by decide)⟩

/-- Trend status when the close is above EMA200. -/
theorem trendStatus_bull (price e200 : ℚ) (h : e200 < price) :
    trendStatus price e200 = (Status.bullTrend, "#00ff00") := by
  unfold trendStatus
  rw [if_pos h]

/-- Trend status when the close is below EMA200. -/
theorem trendStatus_bear (price e200 : ℚ) (h : price < e200) :
    trendStatus price e200 = (Status.bearTrend, "#ff4b4b") := by
  unfold trendStatus
  rw [if_neg (asymm h), if_pos h]

/-- Trend status when the close equals EMA200. -/
theorem trendStatus_watch (price e200 : ℚ) (h : price = e200) :
    trendStatus price e200 = (Status.watch, "#aaa") := by
  unfold trendStatus
  rw [if_neg (by rw [h]; exact lt_irrefl _),
    if_neg (by rw [h]; exact lt_irrefl _)]

/-- Counterexample close column: ten bars at 100, ten bars at 50, then
a final bar at 120. At the last row the close is above EMA200 while
EMA20 is below EMA60. -/
def exClose : ℕ → ℚ := fun t => if t < 10 then 100 else if t < 20 then 50 else 120

/-- Counterexample raw frame. -/
def exRaw : RawFrame where
  n := 21
  high := exClose
  low := exClose
  close := exClose
  volume := fun _ => 1

/-- Counterexample enriched frame. -/
def exFrame : EnrichedFrame := fetch_data exRaw

set_option maxRecDepth 8000 in
/-- Claim C2 counterexample: on this frame the last close is above
EMA200 but EMA20 is below EMA60, so the claim demands a Neutral
classification, yet `get_signal` returns the bullish trend status,
because line 110 of the source tests only price against EMA200. -/
theorem trend_claim_false :
    exFrame.ema200 (lastIdx exFrame) < exFrame.close (lastIdx exFrame) ∧
    exFrame.ema20 (lastIdx exFrame) < exFrame.ema60 (lastIdx exFrame) ∧
    resultStatus (get_signal exFrame 1 2) = some Status.bullTrend := by
  have h200 : exFrame.ema200 (lastIdx exFrame) < exFrame.close (lastIdx exFrame) := by
    norm_num [exFrame, fetch_data, exRaw, exClose, emaSpan, emaF, lastIdx]
  have h2060 : exFrame.ema20 (lastIdx exFrame) < exFrame.ema60 (lastIdx exFrame) := by
    norm_num [exFrame, fetch_data, exRaw, exClose, emaSpan, emaF, lastIdx]
  refine ⟨h200, h2060, ?_⟩
  have h21 : ¬ exFrame.n < 21 := by decide
  have hprev : exFrame.close (prevIdx exFrame) ≠ 0 := by
    norm_num [exFrame, fetch_data, exRaw, exClose, prevIdx]
  have hbull : is_bullish (exFrame.close (lastIdx exFrame))
      (exFrame.ema20 (lastIdx exFrame)) (exFrame.ema60 (lastIdx exFrame))
      (exFrame.ema200 (lastIdx exFrame)) = false := by
    unfold is_bullish
    simp [asymm h2060]
  have hbear : is_bearish (exFrame.close (lastIdx exFrame))
      (exFrame.ema20 (lastIdx exFrame)) (exFrame.ema60 (lastIdx exFrame))
      (exFrame.ema200 (lastIdx exFrame)) = false := by
    unfold is_bearish
    simp [asymm h200]
  have hbr : (branchOf exFrame 2).1 = none := by
    unfold branchOf decideBranch
    rw [if_neg (by simp [hbull]), if_neg (by simp [hbear])]
  rw [get_signal_ok exFrame 1 2 h21 hprev]
  show some (evalOf exFrame 1 2).status = some Status.bullTrend
  rw [evalOf_status_of_none exFrame 1 2 hbr, trendStatus_bull _ _ h200]

/-- Claim C2 (amended): when no breakout or breakdown branch fired, the
returned status is the bullish trend exactly when the last close is
above EMA200, the bearish trend exactly when it is below, and watch
exactly when they are equal; the EMA20 versus EMA60 comparison enters
only the internal bullish and bearish flags that gate the branches,
never the returned trend status. -/
theorem trend_status_spec (df : EnrichedFrame) (pL vL : ℚ)
    (h21 : ¬ df.n < 21) (hprev : df.close (prevIdx df) ≠ 0) :
    ∃ e, get_signal df pL vL = Except.ok (GsResult.result e) ∧
      (e.action = none →
        ((e.status = Status.bullTrend ↔
            df.ema200 (lastIdx df) < df.close (lastIdx df)) ∧
         (e.status = Status.bearTrend ↔
            df.close (lastIdx df) < df.ema200 (lastIdx df)) ∧
         (e.status = Status.watch ↔
            df.close (lastIdx df) = df.ema200 (lastIdx df)))) := by
  refine ⟨evalOf df pL vL, get_signal_ok df pL vL h21 hprev, ?_⟩
  intro hact
  have hs := evalOf_status_of_none df pL vL
    (by rw [← evalOf_action df pL vL]; exact hact)
  rw [hs]
  rcases lt_trichotomy (df.close (lastIdx df)) (df.ema200 (lastIdx df))
    with h | h | h
  · rw [trendStatus_bear _ _ h]
    refine ⟨?_, ?_, ?_⟩
    · simp [asymm h]
    · simp [h]
    · simp [ne_of_lt h]
  · rw [trendStatus_watch _ _ h]
    refine ⟨?_, ?_, ?_⟩
    · simp [h, lt_irrefl]
    · simp [h, lt_irrefl]
    · simp [h]
  · rw [trendStatus_bull _ _ h]
    refine ⟨?_, ?_, ?_⟩
    · simp [h]
    · simp [asymm h]
    · simp [ne_of_gt h]

/-- Claim C2 witness (amended form): the counterexample frame satisfies
the hypotheses and the returned status matches its trend comparison. -/
theorem trend_status_spec_witness :
    ¬ exFrame.n < 21 ∧ exFrame.close (prevIdx exFrame) ≠ 0 ∧
    (∃ e, get_signal exFrame 1 2 = Except.ok (GsResult.result e) ∧
      (e.action = none →
        ((e.status = Status.bullTrend ↔
            exFrame.ema200 (lastIdx exFrame) < exFrame.close (lastIdx exFrame)) ∧
         (e.status = Status.bearTrend ↔
            exFrame.close (lastIdx exFrame) < exFrame.ema200 (lastIdx exFrame)) ∧
         (e.status = Status.watch ↔
            exFrame.close (lastIdx exFrame) = exFrame.ema200 (lastIdx exFrame))))) :=
  ⟨by decide, by decide, trend_status_spec exFrame 1 2 (by decide) (by decide)⟩

/-- Claim C3: with enough rows, a nonzero previous close and a defined
resistance, a bullish flag with the close strictly above the resistance
and the volume ratio at or above the threshold yields the breakout-long
action with the resistance value, the trend confirmation and the volume
ratio as reasons; symmetrically for breakdown-short with support and a
bearish flag. -/
theorem breakout_overlay (df : EnrichedFrame) (pL vL : ℚ)
    (h21 : ¬ df.n < 21) (hprev : df.close (prevIdx df) ≠ 0) :
    (∀ r, df.resistC (lastIdx df) = some r →
      is_bullish (df.close (lastIdx df)) (df.ema20 (lastIdx df))
        (df.ema60 (lastIdx df)) (df.ema200 (lastIdx df)) = true →
      r < df.close (lastIdx df) → vL ≤ vRatioOf df →
      ∃ e, get_signal df pL vL = Except.ok (GsResult.result e) ∧
        e.status = Status.breakoutLong ∧ e.trigger = true ∧
        e.reasons = [Reason.brokeRes r, Reason.trendBull,
          Reason.volConfirm (vRatioOf df)] ∧
        e.cardStyle = "blink-bull") ∧
    (∀ s, df.supportC (lastIdx df) = some s →
      is_bearish (df.close (lastIdx df)) (df.ema20 (lastIdx df))
        (df.ema60 (lastIdx df)) (df.ema200 (lastIdx df)) = true →
      df.close (lastIdx df) < s → vL ≤ vRatioOf df →
      ∃ e, get_signal df pL vL = Except.ok (GsResult.result e) ∧
        e.status = Status.breakdownShort ∧ e.trigger = true ∧
        e.reasons = [Reason.brokeSup s, Reason.trendBear,
          Reason.volDown (vRatioOf df)] ∧
        e.cardStyle = "blink-bear") := by
  constructor
  · intro r hres hbull hgt hvol
    have hbr : branchOf df vL =
        (some Status.breakoutLong,
         [Reason.brokeRes r, Reason.trendBull, Reason.volConfirm (vRatioOf df)],
         "blink-bull") := by
      unfold branchOf decideBranch
      rw [hres]
      rw [if_pos (by simp [hbull, gtOpt, hgt, hvol])]
      simp
    refine ⟨evalOf df pL vL, get_signal_ok df pL vL h21 hprev, ?_, ?_, ?_, ?_⟩
    · exact evalOf_status_of_action df pL vL _ (by rw [hbr])
    · rw [evalOf_trigger, hbr]
      rfl
    · rw [evalOf_reasons, hbr]
    · rw [evalOf_cardStyle, hbr]
  · intro s hsup hbear hlt hvol
    have hprice : df.close (lastIdx df) < df.ema200 (lastIdx df) := by
      have h := hbear
      unfold is_bearish at h
      simp only [Bool.and_eq_true, decide_eq_true_eq] at h
      exact h.1
    have hnotbull : is_bullish (df.close (lastIdx df)) (df.ema20 (lastIdx df))
        (df.ema60 (lastIdx df)) (df.ema200 (lastIdx df)) = false := by
      unfold is_bullish
      simp [asymm hprice]
    have hbr : branchOf df vL =
        (some Status.breakdownShort,
         [Reason.brokeSup s, Reason.trendBear, Reason.volDown (vRatioOf df)],
         "blink-bear") := by
      unfold branchOf decideBranch
      rw [hsup]
      rw [if_neg (by simp [hnotbull]), if_pos (by simp [hbear, ltOpt, hlt, hvol])]
      simp
    refine ⟨evalOf df pL vL, get_signal_ok df pL vL h21 hprev, ?_, ?_, ?_, ?_⟩
    · exact evalOf_status_of_action df pL vL _ (by rw [hbr])
    · rw [evalOf_trigger, hbr]
      rfl
    · rw [evalOf_reasons, hbr]
    · rw [evalOf_cardStyle, hbr]

set_option maxRecDepth 8000 in
/-- Claim C3 witness: the breakout scenario (twenty closes at 10 then a
close at 11 on triple volume) fires the breakout-long branch. -/
theorem breakout_overlay_witness :
    ¬ bexFrame.n < 21 ∧
    bexFrame.resistC (lastIdx bexFrame) = some 10 ∧
    is_bullish (bexFrame.close (lastIdx bexFrame))
      (bexFrame.ema20 (lastIdx bexFrame)) (bexFrame.ema60 (lastIdx bexFrame))
      (bexFrame.ema200 (lastIdx bexFrame)) = true ∧
    (10 : ℚ) < bexFrame.close (lastIdx bexFrame) ∧
    (2 : ℚ) ≤ vRatioOf bexFrame ∧
    (∃ e, get_signal bexFrame 1 2 = Except.ok (GsResult.result e) ∧
      e.status = Status.breakoutLong ∧ e.trigger = true ∧
      e.reasons = [Reason.brokeRes 10, Reason.trendBull,
        Reason.volConfirm (vRatioOf bexFrame)] ∧
      e.cardStyle = "blink-bull") := by
  have h21 : ¬ bexFrame.n < 21 := by decide
  have hprev : bexFrame.close (prevIdx bexFrame) ≠ 0 := by
    norm_num [bexFrame, fetch_data, bexRaw, bexClose, prevIdx]
  have hres : bexFrame.resistC (lastIdx bexFrame) = some 10 := by
    norm_num [bexFrame, fetch_data, bexRaw, bexClose, shift1, rollingMax,
      maxFrom, lastIdx]
  have hbull : is_bullish (bexFrame.close (lastIdx bexFrame))
      (bexFrame.ema20 (lastIdx bexFrame)) (bexFrame.ema60 (lastIdx bexFrame))
      (bexFrame.ema200 (lastIdx bexFrame)) = true := by
    norm_num [is_bullish, bexFrame, fetch_data, bexRaw, bexClose, emaSpan,
      emaF, lastIdx]
  have hgt : (10 : ℚ) < bexFrame.close (lastIdx bexFrame) := by
    norm_num [bexFrame, fetch_data, bexRaw, bexClose, lastIdx]
  have hvol : (2 : ℚ) ≤ vRatioOf bexFrame := by
    norm_num [vRatioOf, volumeRatio, bexFrame, fetch_data, bexRaw, bexVol,
      rollingMean, sumFrom, lastIdx]
  exact ⟨h21, hres, hbull, hgt, hvol,
    (breakout_overlay bexFrame 1 2 h21 hprev).1 10 hres hbull hgt hvol⟩

end TrendV11
